import Mathlib

/-!
A verification development for the PrioritiAI repository.

The repository ships a priority-scoring microservice (documented under
AIPrioritization/) and a Next.js frontend.  The Python sources of the scoring
service itself are not part of the snapshot, so the scoring pipeline below is
modelled from the specification; the frontend database-row mapping
(mapDatabaseToTask) is translated directly from the TypeScript source.

Scores, weights and timestamps are modelled as rational numbers; timestamps
are rationals measured in hours.
-/

namespace PrioritiAI

/-- Clamp a rational into the closed interval from lo to hi. -/
def clamp (lo hi x : ℚ) : ℚ := max lo (min x hi)

/-- Modelled from the spec: task category tag of the scoring service
(models.py is absent from the snapshot); OTHER stands for an unknown,
extension category. -/
inductive TaskCategory where
  | SECURITY
  | INFRASTRUCTURE
  | MEETING_PREP
  | SUPPORT
  | DEVELOPMENT
  | MAINTENANCE
  | TRAINING
  | COMPLIANCE
  | OTHER
deriving Repr, DecidableEq

/-- Modelled from the spec: requester role tag of the scoring service
(models.py is absent from the snapshot); OTHER stands for an unknown role. -/
inductive UserRole where
  | CEO
  | CFO
  | CTO
  | MANAGER
  | IT_ADMIN
  | CLIENT
  | DEVELOPER
  | EMPLOYEE
  | OTHER
deriving Repr, DecidableEq

/-- Modelled from the spec: category urgency multipliers (SECURITY 1.5,
INFRASTRUCTURE 1.3, MEETING_PREP 1.2, SUPPORT 1.0, DEVELOPMENT 0.8,
MAINTENANCE 0.7, TRAINING 0.6, COMPLIANCE 0.9, unknown 1.0). -/
def categoryMultiplier : TaskCategory → ℚ
  | .SECURITY => 3/2
  | .INFRASTRUCTURE => 13/10
  | .MEETING_PREP => 6/5
  | .SUPPORT => 1
  | .DEVELOPMENT => 4/5
  | .MAINTENANCE => 7/10
  | .TRAINING => 3/5
  | .COMPLIANCE => 9/10
  | .OTHER => 1

/-- Modelled from the spec: fixed role priority weight table (CEO 5.0,
CFO and CTO 4.5, MANAGER 3.5, IT_ADMIN 3.0, CLIENT 2.5, DEVELOPER 2.5,
EMPLOYEE 2.0, unknown roles default to 2.0). -/
def rolePriorityWeight : UserRole → ℚ
  | .CEO => 5
  | .CFO => 9/2
  | .CTO => 9/2
  | .MANAGER => 7/2
  | .IT_ADMIN => 3
  | .CLIENT => 5/2
  | .DEVELOPER => 5/2
  | .EMPLOYEE => 2
  | .OTHER => 2

/-- Modelled from the spec: caller-provided task input of the scoring service
(models.py TaskRequest is absent from the snapshot).  The five optional
manual overrides are each nullable and independently settable. -/
structure TaskInput where
  id : String
  title : String
  description : String
  category : TaskCategory
  requesterRole : UserRole
  requesterName : Option String := none
  createdAt : ℚ
  meetingTime : Option ℚ := none
  deadline : Option ℚ := none
  context : Option String := none
  tags : List String := []
  businessValue : Option ℚ := none
  riskLevel : Option ℚ := none
  estimatedEffortHours : Option ℚ := none
  affectedUsersCount : Option ℕ := none
  workaroundAvailable : Option Bool := none
deriving Repr, DecidableEq

/-- Separator characters used when tokenising task text. -/
def isSeparator (c : Char) : Bool :=
  c = ' ' || c = ',' || c = '.' || c = '!' || c = '?' || c = ':' || c = ';'

/-- Split a character list into words, accumulating the current word
reversed in the second argument. -/
def splitWordsAux : List Char → List Char → List String
  | [], acc => if acc.isEmpty then [] else [String.mk acc.reverse]
  | c :: cs, acc =>
    if isSeparator c then
      if acc.isEmpty then splitWordsAux cs []
      else String.mk acc.reverse :: splitWordsAux cs []
    else splitWordsAux cs (c :: acc)

/-- Tokenise a string into words. -/
def splitWords (s : String) : List String := splitWordsAux s.data []

/-- The concatenated text inspected by the content analyser and by the
sensitive-content gate: title, description and optional context. -/
def taskText (t : TaskInput) : String :=
  t.title ++ " " ++ t.description ++ " " ++ t.context.getD ""

/-- The word list of the inspected task text. -/
def taskWords (t : TaskInput) : List String := splitWords (taskText t)

/-- Number of keywords of the first list occurring among the given words. -/
def countHits (keywords ws : List String) : ℕ :=
  keywords.countP (fun k => ws.contains k)

/-- Whether at least one keyword of the first list occurs among the words. -/
def hasHit (keywords ws : List String) : Bool :=
  keywords.any (fun k => ws.contains k)

/-- Modelled from the spec: keywords signalling revenue, customer or
executive impact for the business-value heuristic. -/
def businessKeywords : List String := ["revenue", "customer", "executive"]

/-- Modelled from the spec: security and breach related keywords for the
risk heuristic. -/
def riskKeywords : List String := ["security", "breach"]

/-- Modelled from the spec: complexity signals for the effort heuristic. -/
def complexityKeywords : List String := ["rebuild", "migrate", "investigate"]

/-- Modelled from the spec: alternative-solution language for the
workaround heuristic. -/
def workaroundKeywords : List String := ["workaround", "alternative"]

/-- Modelled from the spec: sensitive-content indicator categories with
their keyword lists (privacy_service.py is absent from the snapshot). -/
def sensitiveCategories : List (String × List String) :=
  [("credentials", ["password", "credentials"]),
   ("personal_data", ["ssn"]),
   ("confidential", ["confidential"]),
   ("financial", ["salary"])]

/-- Modelled from the spec: the sensitive-content gate returns the list of
matched indicator categories over the concatenated task text. -/
def sensitiveIndicators (t : TaskInput) : List String :=
  (sensitiveCategories.filter (fun p => hasHit p.2 (taskWords t))).map Prod.fst

/-- Modelled from the spec: a task is sensitive when at least one indicator
category matches. -/
def isSensitive (t : TaskInput) : Bool :=
  !(sensitiveIndicators t).isEmpty

/-- Modelled from the spec: base business value per requester role
(executive roles high, EMPLOYEE low). -/
def roleBusinessBase : UserRole → ℚ
  | .CEO => 8
  | .CFO => 8
  | .CTO => 8
  | .MANAGER => 6
  | .IT_ADMIN => 5
  | .CLIENT => 6
  | .DEVELOPER => 4
  | .EMPLOYEE => 3
  | .OTHER => 3

/-- Modelled from the spec: auto-calculated business value, a role base
combined additively with keyword hits, clamped to the interval 1 to 10. -/
def autoBusinessValue (t : TaskInput) : ℚ :=
  clamp 1 10 (roleBusinessBase t.requesterRole + (countHits businessKeywords (taskWords t) : ℚ))

/-- Whether the category is one of the high risk categories. -/
def highRiskCategory : TaskCategory → Bool
  | .SECURITY => true
  | .INFRASTRUCTURE => true
  | _ => false

/-- Modelled from the spec: auto-calculated risk level, keyword and category
driven, clamped to the interval 1 to 10. -/
def autoRiskLevel (t : TaskInput) : ℚ :=
  clamp 1 10 (3 + (if highRiskCategory t.category then 4 else 0)
    + 2 * (countHits riskKeywords (taskWords t) : ℚ))

/-- Modelled from the spec: strictly positive category baseline for the
effort estimate (SUPPORT short, DEVELOPMENT and MAINTENANCE long). -/
def categoryEffortBase : TaskCategory → ℚ
  | .SUPPORT => 1
  | .MEETING_PREP => 1/2
  | .SECURITY => 3
  | .INFRASTRUCTURE => 4
  | .DEVELOPMENT => 8
  | .MAINTENANCE => 6
  | .TRAINING => 2
  | .COMPLIANCE => 3
  | .OTHER => 2

/-- Modelled from the spec: auto-calculated effort in hours, a category
baseline adjusted by complexity signals and description length. -/
def autoEffortHours (t : TaskInput) : ℚ :=
  categoryEffortBase t.category + 2 * (countHits complexityKeywords (taskWords t) : ℚ)
    + (if 200 < t.description.length then 2 else 0)

/-- Whether a word consists only of digits. -/
def isDigitWord (w : String) : Bool :=
  !w.data.isEmpty && w.data.all Char.isDigit

/-- Parse a digit word into a natural number. -/
def parseNatWord (w : String) : ℕ :=
  w.data.foldl (fun n c => 10 * n + (c.toNat - 48)) 0

/-- Modelled from the spec: affected-user extraction, taking the first
numeric mention, a large constant for scale words, and a conservative
default of one user when no signal is found. -/
def extractAffectedUsers (ws : List String) : ℕ :=
  match ws.find? isDigitWord with
  | some w => max 1 (parseNatWord w)
  | none => if ws.contains "all" || ws.contains "everyone" then 1000 else 1

/-- Auto-calculated affected user count of a task. -/
def autoAffectedUsers (t : TaskInput) : ℕ :=
  extractAffectedUsers (taskWords t)

/-- Modelled from the spec: workaround availability from
alternative-solution language, false by default. -/
def autoWorkaround (t : TaskInput) : Bool :=
  hasHit workaroundKeywords (taskWords t)

/-- Modelled from the spec: the number of distinct analysis signals matched,
counting a signal only when the corresponding manual override is absent. -/
def signalCount (t : TaskInput) : ℕ :=
  (if t.businessValue.isNone && hasHit businessKeywords (taskWords t) then 1 else 0)
  + (if t.riskLevel.isNone && hasHit riskKeywords (taskWords t) then 1 else 0)
  + (if t.estimatedEffortHours.isNone && hasHit complexityKeywords (taskWords t) then 1 else 0)
  + (if t.affectedUsersCount.isNone && (taskWords t).any isDigitWord then 1 else 0)
  + (if t.workaroundAvailable.isNone && hasHit workaroundKeywords (taskWords t) then 1 else 0)

/-- Modelled from the spec: analysis confidence starts from a baseline of
0.5, grows with the number of counted signals, and is capped at 0.9,
strictly below 1. -/
def analysisConfidenceOf (t : TaskInput) : ℚ :=
  min (1/2 + (signalCount t : ℚ) / 10) (9/10)

/-- Modelled from the spec: derived content metrics of a task; every field
is either the manual override of the caller or the auto-calculated value. -/
structure ContentMetrics where
  businessValue : ℚ
  riskLevel : ℚ
  effortHours : ℚ
  affectedUsers : ℕ
  workaroundAvailable : Bool
  analysisConfidence : ℚ
deriving Repr, DecidableEq

/-- Modelled from the spec: the content-metric auto-calculator; a manual
override, when supplied, always wins over the auto-calculated value. -/
def computeMetrics (t : TaskInput) : ContentMetrics :=
  { businessValue := t.businessValue.getD (autoBusinessValue t)
    riskLevel := t.riskLevel.getD (autoRiskLevel t)
    effortHours := t.estimatedEffortHours.getD (autoEffortHours t)
    affectedUsers := t.affectedUsersCount.getD (autoAffectedUsers t)
    workaroundAvailable := t.workaroundAvailable.getD (autoWorkaround t)
    analysisConfidence := analysisConfidenceOf t }

/-- Modelled from the spec: score of a single time gap in hours; 10 within
one hour, linearly decaying toward 0 as the gap grows to the 72 hour
horizon, clamped to the interval 0 to 10. -/
def timeScoreFor (g : ℚ) : ℚ :=
  if g ≤ 1 then 10 else clamp 0 10 (10 * (72 - g) / 71)

/-- Nonnegative gap in hours between creation time and a target time. -/
def gapHours (created target : ℚ) : ℚ := max 0 (target - created)

/-- Modelled from the spec: time sensitivity score, 0 when neither meeting
time nor deadline is present, otherwise the best score over the present
timestamps. -/
def timeSensitivity (t : TaskInput) : ℚ :=
  match t.meetingTime, t.deadline with
  | none, none => 0
  | some m, none => timeScoreFor (gapHours t.createdAt m)
  | none, some d => timeScoreFor (gapHours t.createdAt d)
  | some m, some d =>
    max (timeScoreFor (gapHours t.createdAt m)) (timeScoreFor (gapHours t.createdAt d))

/-- Modelled from the spec: the seven priority metric outputs. -/
structure PriorityMetrics where
  urgencyScore : ℚ
  businessImpactScore : ℚ
  riskScore : ℚ
  roleWeight : ℚ
  timeSensitivityScore : ℚ
  effortComplexityScore : ℚ
  finalPriorityScore : ℚ
deriving Repr, DecidableEq

/-- Modelled from the spec: urgency score, the category urgency multiplier
applied to a base urgency derived from the risk level and from time
proximity, clamped to the interval 0 to 10. -/
def urgencyScoreOf (t : TaskInput) (m : ContentMetrics) : ℚ :=
  clamp 0 10 (categoryMultiplier t.category * ((m.riskLevel + timeSensitivity t) / 2))

/-- Modelled from the spec: the composite scoring engine, combining the
five weighted sub-scores into the final priority score with weights
0.30, 0.25, 0.20, 0.15 and 0.10, clamped to the interval 0 to 10. -/
def buildPriorityMetrics (t : TaskInput) (m : ContentMetrics) : PriorityMetrics :=
  let u := urgencyScoreOf t m
  let b := clamp 0 10 m.businessValue
  let r := clamp 0 10 m.riskLevel
  let w := rolePriorityWeight t.requesterRole
  let ts := timeSensitivity t
  let e := clamp 0 10 m.effortHours
  { urgencyScore := u
    businessImpactScore := b
    riskScore := r
    roleWeight := w
    timeSensitivityScore := ts
    effortComplexityScore := e
    finalPriorityScore :=
      clamp 0 10 (u * (30/100) + b * (25/100) + r * (20/100) + w * (15/100) + ts * (10/100)) }

/-- Modelled from the spec: the four ordered urgency classification levels. -/
inductive UrgencyLevel where
  | CRITICAL
  | HIGH
  | MEDIUM
  | LOW
deriving Repr, DecidableEq

/-- Modelled from the spec: configurable classification thresholds. -/
structure Thresholds where
  critical : ℚ
  high : ℚ
  medium : ℚ
deriving Repr, DecidableEq

/-- Modelled from the spec: default thresholds of the classifier. -/
def defaultThresholds : Thresholds := { critical := 8, high := 6, medium := 4 }

/-- Modelled from the spec: the urgency classifier, evaluating thresholds
highest first. -/
def classify (th : Thresholds) (s : ℚ) : UrgencyLevel :=
  if th.critical ≤ s then .CRITICAL
  else if th.high ≤ s then .HIGH
  else if th.medium ≤ s then .MEDIUM
  else .LOW

/-- Modelled from the spec: suggested SLA point estimate per urgency level,
inside the documented window of each level. -/
def slaForLevel : UrgencyLevel → ℚ
  | .CRITICAL => 3
  | .HIGH => 10
  | .MEDIUM => 36
  | .LOW => 96

/-- Whether a role is one of the three executive roles. -/
def isExecutiveRole : UserRole → Bool
  | .CEO => true
  | .CFO => true
  | .CTO => true
  | _ => false

/-- Modelled from the spec: the escalation decision rule, computed from the
already-produced final score and requester role. -/
def escalationRecommendedFor (role : UserRole) (s : ℚ) : Bool :=
  decide (8 ≤ s) || (isExecutiveRole role && decide (6 ≤ s))

/-- Name of the sub-score whose weighted contribution dominates. -/
def dominantFactor (pm : PriorityMetrics) : String :=
  let cu := pm.urgencyScore * (30/100)
  let cb := pm.businessImpactScore * (25/100)
  let cr := pm.riskScore * (20/100)
  let cw := pm.roleWeight * (15/100)
  let ct := pm.timeSensitivityScore * (10/100)
  if decide (cb ≤ cu) && decide (cr ≤ cu) && decide (cw ≤ cu) && decide (ct ≤ cu) then
    "urgency"
  else if decide (cr ≤ cb) && decide (cw ≤ cb) && decide (ct ≤ cb) then
    "business impact"
  else if decide (cw ≤ cr) && decide (ct ≤ cr) then
    "risk"
  else if decide (ct ≤ cw) then
    "requester role"
  else
    "time sensitivity"

/-- Modelled from the spec: input-derived reasoning text naming the
dominant contributing factor. -/
def reasoningFor (pm : PriorityMetrics) : String :=
  "Priority driven mainly by " ++ dominantFactor pm

/-- Modelled from the spec: free text risk summary derived from the risk
level. -/
def riskAssessmentFor (r : ℚ) : String :=
  if 7 ≤ r then "High risk of business disruption"
  else "Moderate or low operational risk"

/-- Modelled from the spec: the sole output of the engine. -/
structure PriorityResult where
  requestId : String
  urgencyLevel : UrgencyLevel
  priorityMetrics : PriorityMetrics
  reasoning : String
  aiConfidence : ℚ
  suggestedSlaHours : ℚ
  escalationRecommended : Bool
  riskAssessment : String
  processedAt : ℚ
deriving Repr, DecidableEq

/-- Modelled from the spec: the deterministic local scoring pipeline,
producing a complete classified result from a task input. -/
def buildResult (t : TaskInput) : PriorityResult :=
  let m := computeMetrics t
  let pm := buildPriorityMetrics t m
  let lvl := classify defaultThresholds pm.finalPriorityScore
  { requestId := t.id
    urgencyLevel := lvl
    priorityMetrics := pm
    reasoning := reasoningFor pm
    aiConfidence := m.analysisConfidence
    suggestedSlaHours := slaForLevel lvl
    escalationRecommended := escalationRecommendedFor t.requesterRole pm.finalPriorityScore
    riskAssessment := riskAssessmentFor m.riskLevel
    processedAt := t.createdAt }

/-- Modelled from the spec: the error raised on structurally invalid input. -/
inductive ValidationError where
  | invalid (msg : String)
deriving Repr, DecidableEq

/-- Modelled from the spec: structural validity of a task input; a missing
id or an empty title or description is invalid, as is a manual override
outside its declared range. -/
def structurallyValid (t : TaskInput) : Bool :=
  (!t.id.isEmpty) && (!t.title.isEmpty) && (!t.description.isEmpty)
  && (match t.businessValue with
      | none => true
      | some v => decide ((1:ℚ) ≤ v) && decide (v ≤ (10:ℚ)))
  && (match t.riskLevel with
      | none => true
      | some v => decide ((1:ℚ) ≤ v) && decide (v ≤ (10:ℚ)))
  && (match t.estimatedEffortHours with
      | none => true
      | some e => decide ((0:ℚ) < e))
  && (match t.affectedUsersCount with
      | none => true
      | some n => decide (1 ≤ n))

/-- Modelled from the spec: the single synchronous scoring entry point,
validating first and only then computing metrics and scores. -/
def score (t : TaskInput) : Except ValidationError PriorityResult :=
  if structurallyValid t then .ok (buildResult t)
  else .error (.invalid "structurally invalid task input")

/-- Modelled from the spec: the optional LLM refiner as an injected
capability; it may return refined reasoning text and confidence, or none
on timeout, error, malformed response or unavailability. -/
def RefinerFn : Type := TaskInput → PriorityResult → Option (String × ℚ)

/-- Modelled from the spec: the scoring pipeline with the optional refiner;
the second component counts refiner invocations.  A sensitive task never
invokes the refiner; a failing refiner is absorbed and the local result is
returned unchanged; a succeeding refiner may only replace reasoning text
and confidence. -/
def scoreWithRefiner (refine : RefinerFn) (t : TaskInput) :
    Except ValidationError (PriorityResult × ℕ) :=
  match score t with
  | .error e => .error e
  | .ok base =>
    if isSensitive t then .ok (base, 0)
    else
      match refine t base with
      | none => .ok (base, 1)
      | some (rs, c) => .ok ({ base with reasoning := rs, aiConfidence := clamp 0 1 c }, 1)

namespace Frontend

/-- A row of the tasks table as consumed by mapDatabaseToTask in the
frontend; nullable columns are options, numeric columns are rationals. -/
structure DbTaskRow where
  id : String
  title : String
  description : String
  source : Option String
  source_ref : Option String
  requester : Option String
  role_hint : Option String
  due_at : Option String
  est_minutes : Option ℚ
  priority_score : Option ℚ
  reasoning : Option String
  urgency_level : Option String
  override_priority : Option ℚ
  override_locked : Option Bool
  status : String
  created_at : Option String
  updated_at : Option String
deriving Repr, DecidableEq

/-- The frontend Task shape as populated by mapDatabaseToTask; Date fields
are modelled by the underlying string. -/
structure Task where
  id : String
  title : String
  description : String
  source : Option String
  source_ref : Option String
  requester : Option String
  role_hint : Option String
  due_at : Option String
  dueDate : Option String
  est_minutes : Option ℚ
  ai_score : Option ℤ
  aiScore : Option ℤ
  ai_reason : Option String
  aiExplanation : Option String
  override_priority : Option ℚ
  override_locked : Bool
  status : String
  created_at : Option String
  createdAt : Option String
  updated_at : Option String
  updatedAt : Option String
  priority : String
  tags : List String
deriving Repr, DecidableEq

/-- JavaScript Math.round, rounding half toward positive infinity. -/
def jsRound (q : ℚ) : ℤ := ⌊q + 1/2⌋

/-- JavaScript truthiness of an optional string: null and the empty string
are falsy. -/
def jsTruthyStr : Option String → Option String
  | some s => if s.isEmpty then none else some s
  | none => none

/-- normalizeStatus from the frontend task operations source. -/
def normalizeStatus (status : String) : String :=
  if status = "incoming" then "inbox"
  else if status = "in_progress" then "in-progress"
  else status

/-- mapUrgencyToPriority from the frontend task operations source. -/
def mapUrgencyToPriority (urgencyLevel : Option String) : String :=
  match urgencyLevel with
  | some "CRITICAL" => "urgent"
  | some "HIGH" => "high"
  | some "MEDIUM" => "medium"
  | _ => "low"

/-- mapDatabaseToTask from the frontend task operations source: maps a
database row to the Task interface; ai score fields scale the stored 0-10
priority score to 0-100 only when the stored value is truthy. -/
def mapDatabaseToTask (row : DbTaskRow) : Task :=
  { id := row.id
    title := row.title
    description := row.description
    source := row.source
    source_ref := row.source_ref
    requester := row.requester
    role_hint := row.role_hint
    due_at := row.due_at
    dueDate := jsTruthyStr row.due_at
    est_minutes := row.est_minutes
    ai_score :=
      match row.priority_score with
      | some p => if p = 0 then none else some (jsRound (p * 10))
      | none => none
    aiScore :=
      match row.priority_score with
      | some p => if p = 0 then none else some (jsRound (p * 10))
      | none => none
    ai_reason := row.reasoning
    aiExplanation := row.reasoning
    override_priority := row.override_priority
    override_locked := row.override_locked.getD false
    status := normalizeStatus row.status
    created_at := row.created_at
    createdAt := jsTruthyStr row.created_at
    updated_at := row.updated_at
    updatedAt := jsTruthyStr row.updated_at
    priority := mapUrgencyToPriority row.urgency_level
    tags :=
      match row.source with
      | some s => if s.isEmpty then [] else [s]
      | none => [] }

end Frontend

/-! Helper lemmas about the clamp function and the bounded components. -/

lemma le_clamp (lo hi x : ℚ) : lo ≤ clamp lo hi x := le_max_left _ _

lemma clamp_le (lo hi x : ℚ) (h : lo ≤ hi) : clamp lo hi x ≤ hi :=
  max_le h (min_le_right _ _)

lemma clamp_mono (lo hi : ℚ) {x y : ℚ} (h : x ≤ y) :
    clamp lo hi x ≤ clamp lo hi y :=
  max_le_max le_rfl (min_le_min h le_rfl)

lemma categoryMultiplier_nonneg (c : TaskCategory) : 0 ≤ categoryMultiplier c := by
  cases c <;> norm_num [categoryMultiplier]

lemma rolePriorityWeight_nonneg (r : UserRole) : 0 ≤ rolePriorityWeight r := by
  cases r <;> norm_num [rolePriorityWeight]

lemma rolePriorityWeight_le_five (r : UserRole) : rolePriorityWeight r ≤ 5 := by
  cases r <;> norm_num [rolePriorityWeight]

lemma timeScoreFor_nonneg (g : ℚ) : 0 ≤ timeScoreFor g := by
  unfold timeScoreFor
  split
  · norm_num
  · exact le_clamp _ _ _

lemma timeScoreFor_le_ten (g : ℚ) : timeScoreFor g ≤ 10 := by
  unfold timeScoreFor
  split
  · norm_num
  · exact clamp_le _ _ _ (by norm_num)

lemma timeSensitivity_nonneg (t : TaskInput) : 0 ≤ timeSensitivity t := by
  unfold timeSensitivity
  cases hm : t.meetingTime <;> cases hd : t.deadline
  · exact le_rfl
  · exact timeScoreFor_nonneg _
  · exact timeScoreFor_nonneg _
  · exact le_max_of_le_left (timeScoreFor_nonneg _)

lemma timeSensitivity_le_ten (t : TaskInput) : timeSensitivity t ≤ 10 := by
  unfold timeSensitivity
  cases hm : t.meetingTime <;> cases hd : t.deadline
  · norm_num
  · exact timeScoreFor_le_ten _
  · exact timeScoreFor_le_ten _
  · exact max_le (timeScoreFor_le_ten _) (timeScoreFor_le_ten _)

lemma slaForLevel_pos (l : UrgencyLevel) : 0 < slaForLevel l := by
  cases l <;> norm_num [slaForLevel]

lemma analysisConfidenceOf_nonneg (t : TaskInput) : 0 ≤ analysisConfidenceOf t := by
  unfold analysisConfidenceOf
  have h : (0:ℚ) ≤ 1/2 + (signalCount t : ℚ) / 10 := by positivity
  exact le_min h (by norm_num)

lemma analysisConfidenceOf_le_one (t : TaskInput) : analysisConfidenceOf t ≤ 1 :=
  le_trans (min_le_right _ _) (by norm_num)

/-- Every range invariant of the produced result, proved for all inputs. -/
lemma buildResult_ranges (t : TaskInput) :
    (0 ≤ (buildResult t).priorityMetrics.urgencyScore ∧
      (buildResult t).priorityMetrics.urgencyScore ≤ 10) ∧
    (0 ≤ (buildResult t).priorityMetrics.businessImpactScore ∧
      (buildResult t).priorityMetrics.businessImpactScore ≤ 10) ∧
    (0 ≤ (buildResult t).priorityMetrics.riskScore ∧
      (buildResult t).priorityMetrics.riskScore ≤ 10) ∧
    (0 ≤ (buildResult t).priorityMetrics.roleWeight ∧
      (buildResult t).priorityMetrics.roleWeight ≤ 5) ∧
    (0 ≤ (buildResult t).priorityMetrics.timeSensitivityScore ∧
      (buildResult t).priorityMetrics.timeSensitivityScore ≤ 10) ∧
    (0 ≤ (buildResult t).priorityMetrics.effortComplexityScore ∧
      (buildResult t).priorityMetrics.effortComplexityScore ≤ 10) ∧
    (0 ≤ (buildResult t).priorityMetrics.finalPriorityScore ∧
      (buildResult t).priorityMetrics.finalPriorityScore ≤ 10) ∧
    0 < (buildResult t).suggestedSlaHours ∧
    (0 ≤ (buildResult t).aiConfidence ∧ (buildResult t).aiConfidence ≤ 1) := by
  refine ⟨⟨?_, ?_⟩, ⟨?_, ?_⟩, ⟨?_, ?_⟩, ⟨?_, ?_⟩, ⟨?_, ?_⟩, ⟨?_, ?_⟩, ⟨?_, ?_⟩, ?_, ?_, ?_⟩
  · exact le_clamp _ _ _
  · exact clamp_le _ _ _ (by norm_num)
  · exact le_clamp _ _ _
  · exact clamp_le _ _ _ (by norm_num)
  · exact le_clamp _ _ _
  · exact clamp_le _ _ _ (by norm_num)
  · exact rolePriorityWeight_nonneg t.requesterRole
  · exact rolePriorityWeight_le_five t.requesterRole
  · exact timeSensitivity_nonneg t
  · exact timeSensitivity_le_ten t
  · exact le_clamp _ _ _
  · exact clamp_le _ _ _ (by norm_num)
  · exact le_clamp _ _ _
  · exact clamp_le _ _ _ (by norm_num)
  · exact slaForLevel_pos _
  · exact analysisConfidenceOf_nonneg t
  · exact analysisConfidenceOf_le_one t

/-! Concrete inputs used by the witnesses. -/

set_option maxRecDepth 100000

/-- A sparse but structurally valid task with a very short description. -/
def sparseTask : TaskInput :=
  { id := "t1", title := "vpn down", description := "ok", category := .SUPPORT,
    requesterRole := .EMPLOYEE, createdAt := 0 }

/-- A structurally invalid task: its title is empty. -/
def emptyTitleTask : TaskInput :=
  { id := "t2", title := "", description := "printer jammed", category := .SUPPORT,
    requesterRole := .EMPLOYEE, createdAt := 0 }

/-- An executive meeting-preparation task with an imminent meeting. -/
def ceoMeetingTask : TaskInput :=
  { id := "t3", title := "laptop broken", description := "file for customer meeting lost",
    category := .MEETING_PREP, requesterRole := .CEO, createdAt := 0,
    meetingTime := some (3/4) }

/-- A task whose text trips the credentials indicator of the gate. -/
def sensitiveTask : TaskInput :=
  { id := "t4", title := "reset", description := "my password is lost", category := .SUPPORT,
    requesterRole := .EMPLOYEE, createdAt := 0 }

/-- A task carrying a manual business-value override. -/
def overrideTask : TaskInput :=
  { id := "t5", title := "update docs", description := "minor wording fix", category := .DEVELOPMENT,
    requesterRole := .EMPLOYEE, createdAt := 0, businessValue := some 7 }

/-- A refiner double that always reports a refined reasoning text. -/
def okRefiner : RefinerFn := fun _ _ => some ("refined reasoning", 19/20)

/-- A refiner double that always fails. -/
def failingRefiner : RefinerFn := fun _ _ => none

/-! The claim theorems. -/

/-- C1: for every input, finalPriorityScore equals the weighted sum
urgencyScore times 0.30 plus businessImpactScore times 0.25 plus riskScore
times 0.20 plus roleWeight times 0.15 plus timeSensitivityScore times 0.10,
clamped to the interval 0 to 10, and the five weights sum to exactly 1. -/
theorem c1_final_score_weighted_sum (t : TaskInput) :
    (buildResult t).priorityMetrics.finalPriorityScore =
      clamp 0 10 ((buildResult t).priorityMetrics.urgencyScore * (30/100)
        + (buildResult t).priorityMetrics.businessImpactScore * (25/100)
        + (buildResult t).priorityMetrics.riskScore * (20/100)
        + (buildResult t).priorityMetrics.roleWeight * (15/100)
        + (buildResult t).priorityMetrics.timeSensitivityScore * (10/100)) ∧
    0 ≤ (buildResult t).priorityMetrics.finalPriorityScore ∧
    (buildResult t).priorityMetrics.finalPriorityScore ≤ 10 ∧
    (30/100 : ℚ) + 25/100 + 20/100 + 15/100 + 10/100 = 1 :=
  ⟨rfl, le_clamp _ _ _, clamp_le _ _ _ (by norm_num), by norm_num⟩

/-- Witness for C1 at the sparse task. -/
theorem c1_final_score_weighted_sum_witness :
    (buildResult sparseTask).priorityMetrics.finalPriorityScore ≤ 10 :=
  (c1_final_score_weighted_sum sparseTask).2.2.1

/-- C2: with the default thresholds, evaluated highest first, a score of at
least 8 is CRITICAL with an SLA point estimate inside 2 to 4 hours, a score
in 6 to 8 is HIGH with SLA inside 8 to 12 hours, a score in 4 to 6 is
MEDIUM with SLA inside 24 to 48 hours, and a score below 4 is LOW with SLA
of at least 72 hours; every score maps to one of the four levels. -/
theorem c2_classification_thresholds (s : ℚ) :
    ((8:ℚ) ≤ s → classify defaultThresholds s = UrgencyLevel.CRITICAL) ∧
    ((6:ℚ) ≤ s → s < 8 → classify defaultThresholds s = UrgencyLevel.HIGH) ∧
    ((4:ℚ) ≤ s → s < 6 → classify defaultThresholds s = UrgencyLevel.MEDIUM) ∧
    (s < 4 → classify defaultThresholds s = UrgencyLevel.LOW) ∧
    (classify defaultThresholds s = UrgencyLevel.CRITICAL ∨
      classify defaultThresholds s = UrgencyLevel.HIGH ∨
      classify defaultThresholds s = UrgencyLevel.MEDIUM ∨
      classify defaultThresholds s = UrgencyLevel.LOW) ∧
    ((2:ℚ) ≤ slaForLevel UrgencyLevel.CRITICAL ∧ slaForLevel UrgencyLevel.CRITICAL ≤ 4) ∧
    ((8:ℚ) ≤ slaForLevel UrgencyLevel.HIGH ∧ slaForLevel UrgencyLevel.HIGH ≤ 12) ∧
    ((24:ℚ) ≤ slaForLevel UrgencyLevel.MEDIUM ∧ slaForLevel UrgencyLevel.MEDIUM ≤ 48) ∧
    (72:ℚ) ≤ slaForLevel UrgencyLevel.LOW := by
  refine ⟨?_, ?_, ?_, ?_, ?_, ?_, ?_, ?_, ?_⟩
  · intro h8
    simp only [classify, defaultThresholds]
    rw [if_pos h8]
  · intro h6 h8
    simp only [classify, defaultThresholds]
    rw [if_neg (not_le.mpr h8), if_pos h6]
  · intro h4 h6
    simp only [classify, defaultThresholds]
    rw [if_neg (not_le.mpr (by linarith)), if_neg (not_le.mpr h6), if_pos h4]
  · intro h4
    simp only [classify, defaultThresholds]
    rw [if_neg (not_le.mpr (by linarith)), if_neg (not_le.mpr (by linarith)),
      if_neg (not_le.mpr h4)]
  · simp only [classify, defaultThresholds]
    split
    · exact Or.inl rfl
    · split
      · exact Or.inr (Or.inl rfl)
      · split
        · exact Or.inr (Or.inr (Or.inl rfl))
        · exact Or.inr (Or.inr (Or.inr rfl))
  · exact ⟨by norm_num [slaForLevel], by norm_num [slaForLevel]⟩
  · exact ⟨by norm_num [slaForLevel], by norm_num [slaForLevel]⟩
  · exact ⟨by norm_num [slaForLevel], by norm_num [slaForLevel]⟩
  · norm_num [slaForLevel]

/-- Witness for C2 at the concrete score 9. -/
theorem c2_classification_thresholds_witness :
    (8:ℚ) ≤ 9 ∧ classify defaultThresholds 9 = UrgencyLevel.CRITICAL :=
  ⟨by norm_num, (c2_classification_thresholds 9).1 (by norm_num)⟩

/-- C3: escalation is recommended exactly when the final score reaches 8,
or the requester is CEO, CFO or CTO and the final score reaches 6; it is
computed by a deterministic rule from the produced score and role. -/
theorem c3_escalation_rule (t : TaskInput) :
    (buildResult t).escalationRecommended =
      escalationRecommendedFor t.requesterRole
        (buildResult t).priorityMetrics.finalPriorityScore ∧
    ((buildResult t).escalationRecommended = true ↔
      8 ≤ (buildResult t).priorityMetrics.finalPriorityScore ∨
        ((t.requesterRole = UserRole.CEO ∨ t.requesterRole = UserRole.CFO ∨
            t.requesterRole = UserRole.CTO) ∧
          6 ≤ (buildResult t).priorityMetrics.finalPriorityScore)) := by
  refine ⟨rfl, ?_⟩
  have hE : (buildResult t).escalationRecommended =
      escalationRecommendedFor t.requesterRole
        (buildResult t).priorityMetrics.finalPriorityScore := rfl
  rw [hE]
  cases hrole : t.requesterRole <;>
    simp [escalationRecommendedFor, isExecutiveRole, hrole]

/-- Witness for C3: the executive meeting task is escalated, since its
final score evaluates to 6.94 and its requester is the CEO. -/
theorem c3_escalation_rule_witness :
    (buildResult ceoMeetingTask).escalationRecommended = true := by
  apply (c3_escalation_rule ceoMeetingTask).2.mpr
  right
  refine ⟨Or.inl rfl, ?_⟩
  have hf : (buildResult ceoMeetingTask).priorityMetrics.finalPriorityScore = 347/50 := by
    with_unfolding_all rfl
  rw [hf]
  norm_num

/-- C4: scoring fails exactly on structurally invalid input, with the
validation checked before any metric computation, and every structurally
valid input produces the complete classified result. -/
theorem c4_validation_boundary (t : TaskInput) :
    (structurallyValid t = true → score t = Except.ok (buildResult t)) ∧
    (structurallyValid t = false → score t =
      Except.error (ValidationError.invalid "structurally invalid task input")) := by
  constructor <;> intro h <;> simp [score, h]

/-- Witness for C4 at a valid sparse task and at an empty-title task. -/
theorem c4_validation_boundary_witness :
    structurallyValid sparseTask = true ∧
    score sparseTask = Except.ok (buildResult sparseTask) ∧
    structurallyValid emptyTitleTask = false ∧
    score emptyTitleTask =
      Except.error (ValidationError.invalid "structurally invalid task input") :=
  ⟨rfl, (c4_validation_boundary sparseTask).1 rfl, rfl,
    (c4_validation_boundary emptyTitleTask).2 rfl⟩

/-- C5: for every structurally valid input, all sub-scores lie in their
declared closed interval, the SLA suggestion is positive, and the
confidence lies between 0 and 1. -/
theorem c5_range_invariants (t : TaskInput) (_h : structurallyValid t = true) :
    (0 ≤ (buildResult t).priorityMetrics.urgencyScore ∧
      (buildResult t).priorityMetrics.urgencyScore ≤ 10) ∧
    (0 ≤ (buildResult t).priorityMetrics.businessImpactScore ∧
      (buildResult t).priorityMetrics.businessImpactScore ≤ 10) ∧
    (0 ≤ (buildResult t).priorityMetrics.riskScore ∧
      (buildResult t).priorityMetrics.riskScore ≤ 10) ∧
    (0 ≤ (buildResult t).priorityMetrics.roleWeight ∧
      (buildResult t).priorityMetrics.roleWeight ≤ 5) ∧
    (0 ≤ (buildResult t).priorityMetrics.timeSensitivityScore ∧
      (buildResult t).priorityMetrics.timeSensitivityScore ≤ 10) ∧
    (0 ≤ (buildResult t).priorityMetrics.effortComplexityScore ∧
      (buildResult t).priorityMetrics.effortComplexityScore ≤ 10) ∧
    (0 ≤ (buildResult t).priorityMetrics.finalPriorityScore ∧
      (buildResult t).priorityMetrics.finalPriorityScore ≤ 10) ∧
    0 < (buildResult t).suggestedSlaHours ∧
    (0 ≤ (buildResult t).aiConfidence ∧ (buildResult t).aiConfidence ≤ 1) :=
  buildResult_ranges t

/-- Witness for C5 at the sparse task with a two character description. -/
theorem c5_range_invariants_witness :
    structurallyValid sparseTask = true ∧
    0 < (buildResult sparseTask).suggestedSlaHours :=
  ⟨rfl, (c5_range_invariants sparseTask rfl).2.2.2.2.2.2.2.1⟩

/-- C6: a supplied manual override is returned exactly as the corresponding
content metric, the auto-calculated value is never blended in, and the
confidence signal count of an overridden field is exactly the count with
that field credited removed. -/
theorem c6_override_precedence (t : TaskInput) :
    (∀ v : ℚ, t.businessValue = some v → (computeMetrics t).businessValue = v) ∧
    (∀ v : ℚ, t.riskLevel = some v → (computeMetrics t).riskLevel = v) ∧
    (∀ e : ℚ, t.estimatedEffortHours = some e → (computeMetrics t).effortHours = e) ∧
    (∀ n : ℕ, t.affectedUsersCount = some n → (computeMetrics t).affectedUsers = n) ∧
    (∀ b : Bool, t.workaroundAvailable = some b → (computeMetrics t).workaroundAvailable = b) ∧
    (computeMetrics t).analysisConfidence = min (1/2 + (signalCount t : ℚ) / 10) (9/10) ∧
    (∀ v : ℚ, signalCount { t with businessValue := some v }
        + (if hasHit businessKeywords (taskWords t) then 1 else 0)
      = signalCount { t with businessValue := none }) ∧
    (∀ v : ℚ, signalCount { t with riskLevel := some v }
        + (if hasHit riskKeywords (taskWords t) then 1 else 0)
      = signalCount { t with riskLevel := none }) ∧
    (∀ e : ℚ, signalCount { t with estimatedEffortHours := some e }
        + (if hasHit complexityKeywords (taskWords t) then 1 else 0)
      = signalCount { t with estimatedEffortHours := none }) ∧
    (∀ n : ℕ, signalCount { t with affectedUsersCount := some n }
        + (if (taskWords t).any isDigitWord then 1 else 0)
      = signalCount { t with affectedUsersCount := none }) ∧
    (∀ b : Bool, signalCount { t with workaroundAvailable := some b }
        + (if hasHit workaroundKeywords (taskWords t) then 1 else 0)
      = signalCount { t with workaroundAvailable := none }) := by
  refine ⟨?_, ?_, ?_, ?_, ?_, rfl, ?_, ?_, ?_, ?_, ?_⟩
  · intro v h; simp [computeMetrics, h]
  · intro v h; simp [computeMetrics, h]
  · intro e h; simp [computeMetrics, h]
  · intro n h; simp [computeMetrics, h]
  · intro b h; simp [computeMetrics, h]
  · intro v; simp [signalCount, taskWords, taskText]; try split_ifs <;> omega
  · intro v; simp [signalCount, taskWords, taskText]; try split_ifs <;> omega
  · intro e; simp [signalCount, taskWords, taskText]; try split_ifs <;> omega
  · intro n; simp [signalCount, taskWords, taskText]; try split_ifs <;> omega
  · intro b; simp [signalCount, taskWords, taskText]

/-- Witness for C6: the override task carries businessValue 7 and its
content metrics return exactly 7. -/
theorem c6_override_precedence_witness :
    overrideTask.businessValue = some 7 ∧
    (computeMetrics overrideTask).businessValue = 7 :=
  ⟨rfl, (c6_override_precedence overrideTask).1 7 rfl⟩

/-- C7: on a sensitive task, the refiner is invoked zero times, whatever
refiner is injected, and the fully populated local result is returned. -/
theorem c7_sensitive_isolation (f : RefinerFn) (t : TaskInput) (r : PriorityResult)
    (hs : isSensitive t = true) (hok : score t = Except.ok r) :
    scoreWithRefiner f t = Except.ok (r, 0) := by
  unfold scoreWithRefiner
  rw [hok]
  simp [hs]

/-- Witness for C7: the password task is sensitive and the always-refining
double records zero invocations on it. -/
theorem c7_sensitive_isolation_witness :
    isSensitive sensitiveTask = true ∧
    scoreWithRefiner okRefiner sensitiveTask =
      Except.ok (buildResult sensitiveTask, 0) :=
  ⟨rfl, c7_sensitive_isolation okRefiner sensitiveTask (buildResult sensitiveTask) rfl rfl⟩

/-- C8: a failing refiner is absorbed and the pre-refinement result is
returned unchanged, and whatever the refiner outcome is, the returned
result can differ from the local baseline at most in reasoning text and
confidence: identifier, classification, metrics, SLA, escalation, risk
text and timestamp are unchanged. -/
theorem c8_refiner_failure_absorbed (f : RefinerFn) (t : TaskInput)
    (base : PriorityResult) (hok : score t = Except.ok base) :
    (f t base = none →
      scoreWithRefiner f t = Except.ok (base, if isSensitive t then 0 else 1)) ∧
    (∀ r n, scoreWithRefiner f t = Except.ok (r, n) →
      r.requestId = base.requestId ∧
      r.urgencyLevel = base.urgencyLevel ∧
      r.priorityMetrics = base.priorityMetrics ∧
      r.suggestedSlaHours = base.suggestedSlaHours ∧
      r.escalationRecommended = base.escalationRecommended ∧
      r.riskAssessment = base.riskAssessment ∧
      r.processedAt = base.processedAt) := by
  constructor
  · intro hf
    unfold scoreWithRefiner
    rw [hok]
    by_cases hs : isSensitive t
    · simp [hs]
    · simp [hs, hf]
  · intro r n h
    unfold scoreWithRefiner at h
    rw [hok] at h
    by_cases hs : isSensitive t
    · simp [hs] at h
      obtain ⟨h1, h2⟩ := h
      subst h1
      exact ⟨rfl, rfl, rfl, rfl, rfl, rfl, rfl⟩
    · simp [hs] at h
      cases hfb : f t base with
      | none =>
        rw [hfb] at h
        simp at h
        obtain ⟨h1, h2⟩ := h
        subst h1
        exact ⟨rfl, rfl, rfl, rfl, rfl, rfl, rfl⟩
      | some p =>
        obtain ⟨rs, c⟩ := p
        rw [hfb] at h
        simp at h
        obtain ⟨h1, h2⟩ := h
        subst h1
        exact ⟨rfl, rfl, rfl, rfl, rfl, rfl, rfl⟩

/-- Witness for C8: the failing refiner double is absorbed on the sparse
task and the baseline result comes back with one recorded attempt. -/
theorem c8_refiner_failure_absorbed_witness :
    failingRefiner sparseTask (buildResult sparseTask) = none ∧
    scoreWithRefiner failingRefiner sparseTask =
      Except.ok (buildResult sparseTask, 1) := by
  refine ⟨rfl, ?_⟩
  have h := (c8_refiner_failure_absorbed failingRefiner sparseTask
    (buildResult sparseTask) rfl).1 rfl
  simpa [show isSensitive sparseTask = false from rfl] using h

/-- Helper for C9: the clamped weighted sum is monotone in the risk level
argument, the other components held fixed. -/
lemma final_clamp_mono (mult b w ts : ℚ) (hm : 0 ≤ mult) {r1 r2 : ℚ} (h : r1 ≤ r2) :
    clamp 0 10 (clamp 0 10 (mult * ((r1 + ts) / 2)) * (30/100) + b * (25/100)
      + clamp 0 10 r1 * (20/100) + w * (15/100) + ts * (10/100))
    ≤ clamp 0 10 (clamp 0 10 (mult * ((r2 + ts) / 2)) * (30/100) + b * (25/100)
      + clamp 0 10 r2 * (20/100) + w * (15/100) + ts * (10/100)) := by
  have hu : clamp 0 10 (mult * ((r1 + ts) / 2)) ≤ clamp 0 10 (mult * ((r2 + ts) / 2)) :=
    clamp_mono _ _ (mul_le_mul_of_nonneg_left (by linarith) hm)
  have hr : clamp 0 10 r1 ≤ clamp 0 10 r2 := clamp_mono _ _ h
  exact clamp_mono _ _ (by linarith)

/-- C9: raising the risk-level override, all else fixed, never decreases
the risk score nor the final priority score. -/
theorem c9_risk_monotonicity (t : TaskInput) (r1 r2 : ℚ) (h : r1 ≤ r2) :
    (buildResult { t with riskLevel := some r1 }).priorityMetrics.riskScore ≤
      (buildResult { t with riskLevel := some r2 }).priorityMetrics.riskScore ∧
    (buildResult { t with riskLevel := some r1 }).priorityMetrics.finalPriorityScore ≤
      (buildResult { t with riskLevel := some r2 }).priorityMetrics.finalPriorityScore := by
  constructor
  · show clamp 0 10 r1 ≤ clamp 0 10 r2
    exact clamp_mono _ _ h
  · show clamp 0 10
        (clamp 0 10 (categoryMultiplier t.category * ((r1 + timeSensitivity t) / 2)) * (30/100)
          + clamp 0 10 (t.businessValue.getD (autoBusinessValue t)) * (25/100)
          + clamp 0 10 r1 * (20/100)
          + rolePriorityWeight t.requesterRole * (15/100)
          + timeSensitivity t * (10/100))
      ≤ clamp 0 10
        (clamp 0 10 (categoryMultiplier t.category * ((r2 + timeSensitivity t) / 2)) * (30/100)
          + clamp 0 10 (t.businessValue.getD (autoBusinessValue t)) * (25/100)
          + clamp 0 10 r2 * (20/100)
          + rolePriorityWeight t.requesterRole * (15/100)
          + timeSensitivity t * (10/100))
    exact final_clamp_mono _ _ _ _ (categoryMultiplier_nonneg _) h

/-- Witness for C9 at the sparse task with overrides 3 and 7. -/
theorem c9_risk_monotonicity_witness :
    (buildResult { sparseTask with riskLevel := some 3 }).priorityMetrics.riskScore ≤
      (buildResult { sparseTask with riskLevel := some 7 }).priorityMetrics.riskScore ∧
    (buildResult { sparseTask with riskLevel := some 3 }).priorityMetrics.finalPriorityScore ≤
      (buildResult { sparseTask with riskLevel := some 7 }).priorityMetrics.finalPriorityScore :=
  c9_risk_monotonicity sparseTask 3 7 (by norm_num)

/-- C10: the frontend row mapping sets ai score fields to the rounded
tenfold stored priority score only when the stored value is truthy; a null
or exactly zero stored score surfaces as no AI score at all. -/
theorem c10_ai_score_truthiness (row : Frontend.DbTaskRow) :
    (Frontend.mapDatabaseToTask row).aiScore = (Frontend.mapDatabaseToTask row).ai_score ∧
    (row.priority_score = none → (Frontend.mapDatabaseToTask row).ai_score = none) ∧
    (row.priority_score = some 0 → (Frontend.mapDatabaseToTask row).ai_score = none) ∧
    (∀ p : ℚ, row.priority_score = some p → p ≠ 0 →
      (Frontend.mapDatabaseToTask row).ai_score = some (Frontend.jsRound (p * 10))) := by
  refine ⟨rfl, ?_, ?_, ?_⟩
  · intro h; simp [Frontend.mapDatabaseToTask, h]
  · intro h; simp [Frontend.mapDatabaseToTask, h]
  · intro p hp hne; simp [Frontend.mapDatabaseToTask, hp, hne]

/-- A database row whose stored priority score is exactly zero. -/
def zeroScoreRow : Frontend.DbTaskRow :=
  { id := "42", title := "t", description := "d", source := some "email",
    source_ref := none, requester := none, role_hint := none, due_at := none,
    est_minutes := none, priority_score := some 0, reasoning := none,
    urgency_level := none, override_priority := none, override_locked := none,
    status := "incoming", created_at := none, updated_at := none }

/-- A database row whose stored priority score is 6.71. -/
def scoredRow : Frontend.DbTaskRow :=
  { zeroScoreRow with id := "43", priority_score := some (671/100) }

/-- Witness for C10: the zero-score row surfaces with no AI score, while
the 6.71 row surfaces with the rounded tenfold score. -/
theorem c10_ai_score_truthiness_witness :
    (Frontend.mapDatabaseToTask zeroScoreRow).ai_score = none ∧
    (Frontend.mapDatabaseToTask scoredRow).ai_score =
      some (Frontend.jsRound ((671/100) * 10)) :=
  ⟨(c10_ai_score_truthiness zeroScoreRow).2.2.1 rfl,
    (c10_ai_score_truthiness scoredRow).2.2.2 (671/100) rfl (by norm_num)⟩

end PrioritiAI
